import Mathlib

/-!
Verification of the surface-classification core of `web_app_deploy.py`
(London Output Area surface analysis).

The geometry kernel (shapely) is modelled by finite sets of unit grid
cells: a `Geometry` is a `Finset (ℕ × ℕ)`, geometric union / difference /
intersection are the corresponding finite-set operations, and planar area
is cell cardinality (cast to ℚ so that percentages are exact rationals).
This captures the set-algebraic and measure-additive behaviour that the
classification pipeline relies on.  An empty shapely geometry
(`GeometryCollection()`) is the empty set; `shapely.ops.unary_union` over
a column of geometries is the fold of set union; floating-point division
of areas becomes ℚ division, with the undefined result of dividing by a
zero boundary area (numpy yields NaN/inf, not a number) modelled as
`Option.none`.
-/

namespace LondonSurface

/-- A geometry is a finite set of unit grid cells. -/
abbrev Geometry := Finset (ℕ × ℕ)

/-- Planar area of a geometry: the number of unit cells, as a rational. -/
def area (g : Geometry) : ℚ := g.card

/-- `shapely.ops.unary_union` over a list of geometries. -/
def unary_union (gs : List Geometry) : Geometry := gs.foldr (· ∪ ·) ∅

/-- `gpd.overlay(layer, oa_boundary, how="intersection")` (lines 124-126):
every pairwise intersection of a layer geometry with a boundary row,
keeping only the non-empty pieces. -/
def overlay_intersection (layer rows : List Geometry) : List Geometry :=
  (layer.flatMap fun g => rows.map fun b => g ∩ b).filter fun g => decide (g ≠ ∅)

/-- Line 132: `building_union = unary_union(buildings.geometry) if not
buildings.empty else GeometryCollection()`. -/
def building_union (buildings : List Geometry) : Geometry :=
  if buildings.isEmpty then ∅ else unary_union buildings

/-- Line 135: `carpark["geometry"] = carpark.geometry.difference(building_union)`
— the elementwise difference of each car-park geometry with the building union. -/
def carpark_diffed (carpark : List Geometry) (bu : Geometry) : List Geometry :=
  carpark.map fun g => g \ bu

/-- Line 136: `carpark_union = unary_union(carpark.geometry) if not
carpark.empty else GeometryCollection()`, applied after the elementwise
difference of line 135. -/
def carpark_union (carpark : List Geometry) (bu : Geometry) : Geometry :=
  if carpark.isEmpty then ∅ else unary_union (carpark_diffed carpark bu)

/-- Line 139: `combined_union = unary_union([building_union, carpark_union])`. -/
def combined_union (bu cu : Geometry) : Geometry := unary_union [bu, cu]

/-- Line 140: `greenspace["geometry"] = greenspace.geometry.difference(combined_union)`. -/
def greenspace_diffed (greenspace : List Geometry) (comb : Geometry) : List Geometry :=
  greenspace.map fun g => g \ comb

/-- Line 141: `greenspace_union = unary_union(greenspace.geometry) if not
greenspace.empty else GeometryCollection()`, after the elementwise
difference of line 140. -/
def greenspace_union (greenspace : List Geometry) (comb : Geometry) : Geometry :=
  if greenspace.isEmpty then ∅ else unary_union (greenspace_diffed greenspace comb)

/-- Lines 147-151: `classified_union = unary_union([building_union,
carpark_union, greenspace_union])`. -/
def classified_union (bu cu gu : Geometry) : Geometry := unary_union [bu, cu, gu]

/-- The four class geometries produced by one classification run
(STEP 4 and STEP 5 of the script). -/
@[ext]
structure ClassResult where
  building_u : Geometry
  carpark_u : Geometry
  greenspace_u : Geometry
  opportunity_g : Geometry
  deriving DecidableEq

/-- STEP 4 + STEP 5 (lines 132-153) on already-clipped layer lists.
`b` is `oa_boundary.geometry.iloc[0]`, the first boundary row, from which
line 153 computes `opportunity_geom = b.difference(classified_union)`. -/
def classify (b : Geometry) (buildings carpark greenspace : List Geometry) : ClassResult :=
  let bu := building_union buildings
  let cu := carpark_union carpark bu
  let comb := combined_union bu cu
  let gu := greenspace_union greenspace comb
  ⟨bu, cu, gu, b \ classified_union bu cu gu⟩

/-- Line 159: `total_area = oa_boundary.geometry.area.iloc[0]` — the area
of the FIRST boundary row only. -/
def total_area (oa_rows : List Geometry) : ℚ := area (oa_rows.headD ∅)

/-- Lines 161-164: `x.area if not x.is_empty else 0`. -/
def geom_area (g : Geometry) : ℚ := if g = ∅ then 0 else area g

/-- Lines 166-169: `(x_area / total_area) * 100`.  `total_area` is a
numpy float64, so division by a zero boundary area produces NaN/inf
(a warning, not an exception); that non-number outcome is `none`. -/
def pct (a ta : ℚ) : Option ℚ := if ta = 0 then none else some (a / ta * 100)

/-- The values shown in the STEP 7 results table: four absolute areas and
four percentage shares. -/
structure AreaReport where
  building_area : ℚ
  carpark_area : ℚ
  greenspace_area : ℚ
  opportunity_area : ℚ
  building_pct : Option ℚ
  carpark_pct : Option ℚ
  greenspace_pct : Option ℚ
  opportunity_pct : Option ℚ
  deriving DecidableEq

/-- STEP 3 + STEP 4 + STEP 5: clip the three raw (metric) layers against
all boundary rows, then classify against the first boundary row. -/
def pipeline_geoms (oa_rows buildings_layer carpark_layer greenspace_layer :
    List Geometry) : ClassResult :=
  classify (oa_rows.headD ∅)
    (overlay_intersection buildings_layer oa_rows)
    (overlay_intersection carpark_layer oa_rows)
    (overlay_intersection greenspace_layer oa_rows)

/-- STEP 3 through STEP 6 (lines 124-169): the full classification run
from boundary rows and raw layers to the reported areas and percentages. -/
def compute_report (oa_rows buildings_layer carpark_layer greenspace_layer :
    List Geometry) : AreaReport :=
  let r := pipeline_geoms oa_rows buildings_layer carpark_layer greenspace_layer
  let ta := total_area oa_rows
  { building_area := geom_area r.building_u
    carpark_area := geom_area r.carpark_u
    greenspace_area := geom_area r.greenspace_u
    opportunity_area := geom_area r.opportunity_g
    building_pct := pct (geom_area r.building_u) ta
    carpark_pct := pct (geom_area r.carpark_u) ta
    greenspace_pct := pct (geom_area r.greenspace_u) ta
    opportunity_pct := pct (geom_area r.opportunity_g) ta }

/-- Lines 208-211: reprojection for display returns `None` for an empty
geometry and the reprojected geometry otherwise.  The coordinate
transform itself (`to_crs(epsg=4326)`) is an external kernel capability,
taken as a parameter. -/
def to_wgs84 (proj : Geometry → Geometry) (geom : Geometry) : Option Geometry :=
  if geom = ∅ then none else some (proj geom)

/-- The spec's step 2, written as the spec words it: union the raw
car-park layer first, then take one difference with the building union. -/
def carpark_union_spec (carpark : List Geometry) (bu : Geometry) : Geometry :=
  unary_union carpark \ bu

/-- The spec's step 3, written as the spec words it: union the raw
greenspace layer first, then take one difference with the occupied union. -/
def greenspace_union_spec (greenspace : List Geometry) (occupied : Geometry) : Geometry :=
  unary_union greenspace \ occupied

/-- A sample 2x2-cell boundary used for concrete instances. -/
def bSample : Geometry := {(0, 0), (0, 1), (1, 0), (1, 1)}

/-- A sample buildings layer: one one-cell building inside `bSample`. -/
def blSample : List Geometry := [{(0, 0)}]

/-- A sample car-park layer: one one-cell car park inside `bSample`. -/
def clSample : List Geometry := [{(0, 1)}]

/-- A sample greenspace layer: one one-cell greenspace inside `bSample`. -/
def glSample : List Geometry := [{(1, 0)}]

/-- A sample car-park layer whose single polygon coincides with the
single building of `blSample`. -/
def clContained : List Geometry := [{(0, 0)}]

/-- A boundary lookup that returns two geometry rows for one output-area
code: the first row is one cell at the origin, the second a distant cell. -/
def rowsMulti : List Geometry := [{(0, 0)}, {(5, 5)}]

/-- A buildings layer lying inside the SECOND boundary row of `rowsMulti`. -/
def blMulti : List Geometry := [{(5, 5)}]

/-! ### Basic lemmas about the embedding -/

lemma mem_unary_union {x : ℕ × ℕ} {l : List Geometry} :
    x ∈ unary_union l ↔ ∃ g ∈ l, x ∈ g := by
  induction l with
  | nil => simp [unary_union]
  | cons a l ih =>
    simp only [unary_union, List.foldr_cons, Finset.mem_union, List.mem_cons]
    rw [show List.foldr (· ∪ ·) ∅ l = unary_union l from rfl, ih]
    constructor
    · rintro (hx | ⟨g, hg, hx⟩)
      · exact ⟨a, Or.inl rfl, hx⟩
      · exact ⟨g, Or.inr hg, hx⟩
    · rintro ⟨g, (rfl | hg), hx⟩
      · exact Or.inl hx
      · exact Or.inr ⟨g, hg, hx⟩

lemma unary_union_perm {l1 l2 : List Geometry} (h : l1.Perm l2) :
    unary_union l1 = unary_union l2 := by
  ext x
  simp only [mem_unary_union]
  constructor
  · rintro ⟨g, hg, hx⟩; exact ⟨g, h.mem_iff.mp hg, hx⟩
  · rintro ⟨g, hg, hx⟩; exact ⟨g, h.mem_iff.mpr hg, hx⟩

lemma unary_union_subset {l : List Geometry} {b : Geometry}
    (h : ∀ g ∈ l, g ⊆ b) : unary_union l ⊆ b := by
  intro x hx
  obtain ⟨g, hg, hxg⟩ := mem_unary_union.mp hx
  exact h g hg hxg

lemma subset_unary_union {l : List Geometry} {g : Geometry} (h : g ∈ l) :
    g ⊆ unary_union l := fun _x hx => mem_unary_union.mpr ⟨g, h, hx⟩

/-- The `if .. empty` guard in line 132 is redundant: the union of no
geometries is the empty geometry anyway. -/
lemma building_union_eq (l : List Geometry) : building_union l = unary_union l := by
  cases l <;> simp [building_union, unary_union]

/-- The elementwise difference of line 135 followed by the union of line
136 computes the single set difference of the raw union. -/
lemma carpark_union_eq (l : List Geometry) (bu : Geometry) :
    carpark_union l bu = unary_union l \ bu := by
  cases l with
  | nil => simp [carpark_union, unary_union]
  | cons a t =>
    ext x
    simp only [carpark_union, List.isEmpty_cons, Bool.false_eq_true, if_false,
      carpark_diffed, mem_unary_union, List.mem_map, Finset.mem_sdiff]
    constructor
    · rintro ⟨g, ⟨g0, hg0, rfl⟩, hx⟩
      rcases Finset.mem_sdiff.mp hx with ⟨hx0, hxb⟩
      exact ⟨⟨g0, hg0, hx0⟩, hxb⟩
    · rintro ⟨⟨g0, hg0, hx0⟩, hxb⟩
      exact ⟨g0 \ bu, ⟨g0, hg0, rfl⟩, Finset.mem_sdiff.mpr ⟨hx0, hxb⟩⟩

lemma greenspace_union_eq (l : List Geometry) (comb : Geometry) :
    greenspace_union l comb = unary_union l \ comb := by
  cases l with
  | nil => simp [greenspace_union, unary_union]
  | cons a t =>
    ext x
    simp only [greenspace_union, List.isEmpty_cons, Bool.false_eq_true, if_false,
      greenspace_diffed, mem_unary_union, List.mem_map, Finset.mem_sdiff]
    constructor
    · rintro ⟨g, ⟨g0, hg0, rfl⟩, hx⟩
      rcases Finset.mem_sdiff.mp hx with ⟨hx0, hxb⟩
      exact ⟨⟨g0, hg0, hx0⟩, hxb⟩
    · rintro ⟨⟨g0, hg0, hx0⟩, hxb⟩
      exact ⟨g0 \ comb, ⟨g0, hg0, rfl⟩, Finset.mem_sdiff.mpr ⟨hx0, hxb⟩⟩

lemma combined_union_eq (bu cu : Geometry) : combined_union bu cu = bu ∪ cu := by
  simp [combined_union, unary_union]

lemma classified_union_eq (bu cu gu : Geometry) :
    classified_union bu cu gu = bu ∪ (cu ∪ gu) := by
  simp [classified_union, unary_union, Finset.union_assoc]

/-- The union of the clipped pieces is the intersection of the raw-layer
union with the union of the boundary rows (the dropped empty pieces do
not change the union). -/
lemma unary_union_overlay (layer rows : List Geometry) :
    unary_union (overlay_intersection layer rows) =
      unary_union layer ∩ unary_union rows := by
  ext x
  simp only [overlay_intersection, mem_unary_union, List.mem_filter,
    List.mem_flatMap, List.mem_map, Finset.mem_inter, decide_eq_true_eq]
  constructor
  · rintro ⟨g, ⟨⟨g0, hg0, b0, hb0, rfl⟩, -⟩, hx⟩
    rcases Finset.mem_inter.mp hx with ⟨hx0, hxb⟩
    exact ⟨⟨g0, hg0, hx0⟩, ⟨b0, hb0, hxb⟩⟩
  · rintro ⟨⟨g0, hg0, hx0⟩, ⟨b0, hb0, hxb⟩⟩
    refine ⟨g0 ∩ b0, ⟨⟨g0, hg0, b0, hb0, rfl⟩, ?_⟩, Finset.mem_inter.mpr ⟨hx0, hxb⟩⟩
    exact Finset.ne_empty_of_mem (Finset.mem_inter.mpr ⟨hx0, hxb⟩)

/-- The guarded area of lines 161-164 agrees with the plain area: an
empty geometry has area exactly 0. -/
lemma geom_area_eq (g : Geometry) : geom_area g = area g := by
  by_cases h : g = ∅ <;> simp [geom_area, area, h]

lemma area_nonneg (g : Geometry) : 0 ≤ area g := by
  simp [area]

/-! ### Canonical forms of the four class geometries -/

lemma classify_building (b : Geometry) (bl cl gl : List Geometry) :
    (classify b bl cl gl).building_u = unary_union bl := by
  simp [classify, building_union_eq]

lemma classify_carpark (b : Geometry) (bl cl gl : List Geometry) :
    (classify b bl cl gl).carpark_u = unary_union cl \ unary_union bl := by
  simp [classify, building_union_eq, carpark_union_eq]

lemma classify_greenspace (b : Geometry) (bl cl gl : List Geometry) :
    (classify b bl cl gl).greenspace_u =
      unary_union gl \ (unary_union bl ∪ unary_union cl) := by
  simp only [classify, greenspace_union_eq, combined_union_eq,
    building_union_eq, carpark_union_eq]
  ext x
  simp only [Finset.mem_sdiff, Finset.mem_union]
  tauto

lemma classify_opportunity (b : Geometry) (bl cl gl : List Geometry) :
    (classify b bl cl gl).opportunity_g =
      b \ (unary_union bl ∪ unary_union cl ∪ unary_union gl) := by
  simp only [classify, classified_union_eq, building_union_eq,
    carpark_union_eq, greenspace_union_eq, combined_union_eq]
  ext x
  simp only [Finset.mem_sdiff, Finset.mem_union]
  tauto

/-- If the three raw-layer unions agree, the whole classification agrees:
the result depends on the input collections only through their unions. -/
lemma classify_eq_of_unions (b : Geometry) {bl1 bl2 cl1 cl2 gl1 gl2 : List Geometry}
    (hb : unary_union bl1 = unary_union bl2)
    (hc : unary_union cl1 = unary_union cl2)
    (hg : unary_union gl1 = unary_union gl2) :
    classify b bl1 cl1 gl1 = classify b bl2 cl2 gl2 := by
  apply ClassResult.ext
  · rw [classify_building, classify_building, hb]
  · rw [classify_carpark, classify_carpark, hb, hc]
  · rw [classify_greenspace, classify_greenspace, hb, hc, hg]
  · rw [classify_opportunity, classify_opportunity, hb, hc, hg]

lemma unary_union_singleton (b : Geometry) : unary_union [b] = b := by
  simp [unary_union]

/-! ### The pipeline's geometries over the raw layers -/

lemma pipeline_building (rows bl cl gl : List Geometry) :
    (pipeline_geoms rows bl cl gl).building_u =
      unary_union bl ∩ unary_union rows := by
  rw [pipeline_geoms, classify_building, unary_union_overlay]

lemma pipeline_carpark (rows bl cl gl : List Geometry) :
    (pipeline_geoms rows bl cl gl).carpark_u =
      (unary_union cl ∩ unary_union rows) \ (unary_union bl ∩ unary_union rows) := by
  rw [pipeline_geoms, classify_carpark, unary_union_overlay, unary_union_overlay]

lemma pipeline_greenspace (rows bl cl gl : List Geometry) :
    (pipeline_geoms rows bl cl gl).greenspace_u =
      (unary_union gl ∩ unary_union rows) \
        ((unary_union bl ∩ unary_union rows) ∪ (unary_union cl ∩ unary_union rows)) := by
  rw [pipeline_geoms, classify_greenspace, unary_union_overlay, unary_union_overlay,
    unary_union_overlay]

lemma pipeline_opportunity (rows bl cl gl : List Geometry) :
    (pipeline_geoms rows bl cl gl).opportunity_g =
      rows.headD ∅ \
        ((unary_union bl ∩ unary_union rows) ∪ (unary_union cl ∩ unary_union rows) ∪
          (unary_union gl ∩ unary_union rows)) := by
  rw [pipeline_geoms, classify_opportunity, unary_union_overlay, unary_union_overlay,
    unary_union_overlay]

/-- Cardinality bookkeeping for the priority partition: the three
successively-subtracted classes and the residual inside `b` partition `b`. -/
lemma card_partition (b B C G : Geometry) (hU : B ∪ C ∪ G ⊆ b) :
    B.card + (C \ B).card + (G \ (B ∪ C)).card + (b \ (B ∪ C ∪ G)).card = b.card := by
  have h1 := Finset.card_sdiff_add_card C B
  have h2 := Finset.card_sdiff_add_card G (B ∪ C)
  have h3 := Finset.card_sdiff_add_card_eq_card hU
  rw [Finset.union_comm C B] at h1
  rw [Finset.union_comm G (B ∪ C)] at h2
  omega

/-- On a single-row boundary the four reported areas add up to the
boundary's area (exactly, in the cell model). -/
lemma report_area_sum (b : Geometry) (bl cl gl : List Geometry) :
    (compute_report [b] bl cl gl).building_area +
      (compute_report [b] bl cl gl).carpark_area +
      (compute_report [b] bl cl gl).greenspace_area +
      (compute_report [b] bl cl gl).opportunity_area = total_area [b] := by
  have hd : ([b] : List Geometry).headD ∅ = b := rfl
  have hB := pipeline_building [b] bl cl gl
  have hC := pipeline_carpark [b] bl cl gl
  have hG := pipeline_greenspace [b] bl cl gl
  have hO := pipeline_opportunity [b] bl cl gl
  rw [unary_union_singleton] at hB hC hG hO
  rw [hd] at hO
  set B := unary_union bl ∩ b with hBdef
  set C := unary_union cl ∩ b with hCdef
  set G := unary_union gl ∩ b with hGdef
  have hU : B ∪ C ∪ G ⊆ b := by
    refine Finset.union_subset (Finset.union_subset ?_ ?_) ?_ <;>
      exact Finset.inter_subset_right
  have hcard := card_partition b B C G hU
  simp only [compute_report, geom_area_eq, hB, hC, hG, hO, total_area, hd, area]
  exact_mod_cast congrArg (fun n : ℕ => (n : ℚ)) hcard

lemma area_eq_zero {g : Geometry} (h : g = ∅) : area g = 0 := by
  simp [area, h]

/-! ### The claims -/

/-- C1: Area conservation — for every non-empty, positive-area boundary
polygon and every triple of candidate layers, the sum of the four reported
areas (building, car park, greenspace, opportunity) equals the boundary's
planar area (exactly, in the cell model). -/
theorem area_conservation (b : Geometry) (bl cl gl : List Geometry)
    (_hb : 0 < area b) :
    (compute_report [b] bl cl gl).building_area +
      (compute_report [b] bl cl gl).carpark_area +
      (compute_report [b] bl cl gl).greenspace_area +
      (compute_report [b] bl cl gl).opportunity_area = total_area [b] :=
  report_area_sum b bl cl gl

/-- Witness for C1 at the concrete sample run. -/
theorem area_conservation_instance :
    (compute_report [bSample] blSample clSample glSample).building_area +
      (compute_report [bSample] blSample clSample glSample).carpark_area +
      (compute_report [bSample] blSample clSample glSample).greenspace_area +
      (compute_report [bSample] blSample clSample glSample).opportunity_area =
    total_area [bSample] :=
  area_conservation bSample blSample clSample glSample (by decide)

/-- C2: Pairwise disjointness — in every classification run, any two of
the four output class geometries intersect in area 0. -/
theorem pairwise_disjointness (b : Geometry) (bl cl gl : List Geometry) :
    area ((classify b bl cl gl).building_u ∩ (classify b bl cl gl).carpark_u) = 0 ∧
    area ((classify b bl cl gl).building_u ∩ (classify b bl cl gl).greenspace_u) = 0 ∧
    area ((classify b bl cl gl).building_u ∩ (classify b bl cl gl).opportunity_g) = 0 ∧
    area ((classify b bl cl gl).carpark_u ∩ (classify b bl cl gl).greenspace_u) = 0 ∧
    area ((classify b bl cl gl).carpark_u ∩ (classify b bl cl gl).opportunity_g) = 0 ∧
    area ((classify b bl cl gl).greenspace_u ∩ (classify b bl cl gl).opportunity_g) = 0 := by
  refine ⟨?_, ?_, ?_, ?_, ?_, ?_⟩ <;>
  · apply area_eq_zero
    ext x
    simp only [classify_building, classify_carpark, classify_greenspace,
      classify_opportunity, Finset.mem_inter, Finset.mem_sdiff, Finset.mem_union,
      Finset.not_mem_empty, iff_false, not_and, not_not]
    tauto

/-- C4: Refinement equivalence — the code's elementwise-difference-then-union
computation of the car-park and greenspace classes agrees with the spec's
union-first-then-one-difference algorithm on every input layer set. -/
theorem refinement_equivalence (b : Geometry) (bl cl gl : List Geometry) :
    (classify b bl cl gl).carpark_u = carpark_union_spec cl (building_union bl) ∧
    (classify b bl cl gl).greenspace_u =
      greenspace_union_spec gl
        (building_union bl ∪ carpark_union_spec cl (building_union bl)) := by
  constructor
  · rw [classify_carpark, carpark_union_spec, building_union_eq]
  · rw [classify_greenspace, greenspace_union_spec, carpark_union_spec, building_union_eq]
    ext x
    simp only [Finset.mem_sdiff, Finset.mem_union]
    tauto

/-- C8: Result projection totality on empties — the display reprojection
returns `none` exactly when the input geometry is empty, and the
reprojected geometry otherwise. -/
theorem display_reprojection_absent (proj : Geometry → Geometry) (geom : Geometry) :
    (to_wgs84 proj geom = none ↔ geom = ∅) ∧
    (geom ≠ ∅ → to_wgs84 proj geom = some (proj geom)) := by
  by_cases h : geom = ∅ <;> simp [to_wgs84, h]

/-- C5: Empty-input safety — with an empty car-park layer the run
completes, `carpark_union` is the empty geometry, its reported area is
exactly 0 and its reported percentage exactly 0; an empty union
propagates through the later difference steps as a no-op. -/
theorem empty_carpark_layer (oa_rows bl gl : List Geometry)
    (h : total_area oa_rows ≠ 0) :
    (pipeline_geoms oa_rows bl [] gl).carpark_u = ∅ ∧
    (compute_report oa_rows bl [] gl).carpark_area = 0 ∧
    (compute_report oa_rows bl [] gl).carpark_pct = some 0 ∧
    (∀ bu : Geometry, carpark_union [] bu = ∅) ∧
    (∀ l : List Geometry, carpark_diffed l (∅ : Geometry) = l) ∧
    (∀ l : List Geometry, greenspace_diffed l (∅ : Geometry) = l) := by
  have h1 : (pipeline_geoms oa_rows bl [] gl).carpark_u = ∅ := by
    rw [pipeline_carpark]
    have : unary_union ([] : List Geometry) = ∅ := rfl
    rw [this]
    ext x
    simp
  refine ⟨h1, ?_, ?_, fun bu => rfl, ?_, ?_⟩
  · show geom_area (pipeline_geoms oa_rows bl [] gl).carpark_u = 0
    rw [h1]
    simp [geom_area]
  · show pct (geom_area (pipeline_geoms oa_rows bl [] gl).carpark_u)
      (total_area oa_rows) = some 0
    rw [h1, pct, if_neg h]
    simp [geom_area]
  · intro l
    simp [carpark_diffed]
  · intro l
    simp [greenspace_diffed]

/-- Witness for C5 at the concrete sample run. -/
theorem empty_carpark_layer_instance :
    (compute_report [bSample] blSample [] glSample).carpark_pct = some 0 :=
  (empty_carpark_layer [bSample] blSample glSample (by decide)).2.2.1

/-- C6: Priority monotonicity — a car-park polygon fully contained in a
building polygon contributes no area to the car-park class, and the
building class is never reduced by the other layers. -/
theorem priority_monotonicity (b p q : Geometry) (bl cl gl : List Geometry)
    (hq : q ∈ bl) (_hp : p ∈ cl) (hpq : p ⊆ q) :
    p \ (classify b bl cl gl).building_u = ∅ ∧
    (classify b bl cl gl).carpark_u ∩ p = ∅ ∧
    (classify b bl cl gl).building_u = building_union bl ∧
    (∀ rows cl2 gl2 : List Geometry,
        (compute_report rows bl cl gl).building_area =
          (compute_report rows bl cl2 gl2).building_area) := by
  have hsub : p ⊆ unary_union bl := hpq.trans (subset_unary_union hq)
  refine ⟨?_, ?_, ?_, ?_⟩
  · rw [classify_building]
    exact Finset.sdiff_eq_empty_iff_subset.mpr hsub
  · rw [classify_carpark]
    ext x
    simp only [Finset.mem_inter, Finset.mem_sdiff, Finset.not_mem_empty, iff_false]
    rintro ⟨⟨-, hxnb⟩, hxp⟩
    exact hxnb (hsub hxp)
  · rw [classify_building, building_union_eq]
  · intro rows cl2 gl2
    show geom_area (pipeline_geoms rows bl cl gl).building_u =
      geom_area (pipeline_geoms rows bl cl2 gl2).building_u
    rw [pipeline_building, pipeline_building]

/-- Witness for C6: a one-cell car park coinciding with the one-cell
building contributes nothing to the car-park class. -/
theorem priority_monotonicity_instance :
    ({(0, 0)} : Geometry) \
      (classify bSample blSample clContained glSample).building_u = ∅ :=
  (priority_monotonicity bSample {(0, 0)} {(0, 0)} blSample clContained glSample
    (by decide) (by decide) (by decide)).1

/-- C7: Percentage normalization — for a positive-area single-row
boundary, all four percentages are defined and sum to exactly 100. -/
theorem percentage_normalization (b : Geometry) (bl cl gl : List Geometry)
    (hb : 0 < area b) :
    ∃ p1 p2 p3 p4 : ℚ,
      (compute_report [b] bl cl gl).building_pct = some p1 ∧
      (compute_report [b] bl cl gl).carpark_pct = some p2 ∧
      (compute_report [b] bl cl gl).greenspace_pct = some p3 ∧
      (compute_report [b] bl cl gl).opportunity_pct = some p4 ∧
      p1 + p2 + p3 + p4 = 100 := by
  have ht : total_area [b] ≠ 0 := by
    have : total_area [b] = area b := rfl
    rw [this]
    exact ne_of_gt hb
  have h1 : (compute_report [b] bl cl gl).building_pct =
      some ((compute_report [b] bl cl gl).building_area / total_area [b] * 100) := by
    show pct (compute_report [b] bl cl gl).building_area (total_area [b]) = _
    rw [pct, if_neg ht]
  have h2 : (compute_report [b] bl cl gl).carpark_pct =
      some ((compute_report [b] bl cl gl).carpark_area / total_area [b] * 100) := by
    show pct (compute_report [b] bl cl gl).carpark_area (total_area [b]) = _
    rw [pct, if_neg ht]
  have h3 : (compute_report [b] bl cl gl).greenspace_pct =
      some ((compute_report [b] bl cl gl).greenspace_area / total_area [b] * 100) := by
    show pct (compute_report [b] bl cl gl).greenspace_area (total_area [b]) = _
    rw [pct, if_neg ht]
  have h4 : (compute_report [b] bl cl gl).opportunity_pct =
      some ((compute_report [b] bl cl gl).opportunity_area / total_area [b] * 100) := by
    show pct (compute_report [b] bl cl gl).opportunity_area (total_area [b]) = _
    rw [pct, if_neg ht]
  refine ⟨_, _, _, _, h1, h2, h3, h4, ?_⟩
  have hsum := report_area_sum b bl cl gl
  field_simp
  linarith

/-- Witness for C7 at the concrete sample run. -/
theorem percentage_normalization_instance :
    ∃ p1 p2 p3 p4 : ℚ,
      (compute_report [bSample] blSample clSample glSample).building_pct = some p1 ∧
      (compute_report [bSample] blSample clSample glSample).carpark_pct = some p2 ∧
      (compute_report [bSample] blSample clSample glSample).greenspace_pct = some p3 ∧
      (compute_report [bSample] blSample clSample glSample).opportunity_pct = some p4 ∧
      p1 + p2 + p3 + p4 = 100 :=
  percentage_normalization bSample blSample clSample glSample (by decide)

/-- C9: Determinism under re-run — the report is a pure function of the
boundary rows and the three layer collections, independent of the
iteration order of each collection. -/
theorem rerun_determinism (oa_rows bl1 bl2 cl1 cl2 gl1 gl2 : List Geometry)
    (hb : bl1.Perm bl2) (hc : cl1.Perm cl2) (hg : gl1.Perm gl2) :
    compute_report oa_rows bl1 cl1 gl1 = compute_report oa_rows bl2 cl2 gl2 := by
  have e : pipeline_geoms oa_rows bl1 cl1 gl1 = pipeline_geoms oa_rows bl2 cl2 gl2 := by
    unfold pipeline_geoms
    apply classify_eq_of_unions
    · rw [unary_union_overlay, unary_union_overlay, unary_union_perm hb]
    · rw [unary_union_overlay, unary_union_overlay, unary_union_perm hc]
    · rw [unary_union_overlay, unary_union_overlay, unary_union_perm hg]
  simp only [compute_report, e]

/-- Witness for C9: reordering the buildings layer leaves the report
unchanged. -/
theorem rerun_determinism_instance :
    compute_report [bSample] [({(0, 0)} : Geometry), {(0, 1)}] clSample glSample =
      compute_report [bSample] [({(0, 1)} : Geometry), {(0, 0)}] clSample glSample :=
  rerun_determinism [bSample] _ _ _ _ _ _ (by decide) (List.Perm.refl _)
    (List.Perm.refl _)

/-- C3, counterexample: on a zero-area (empty) boundary row the script
does NOT stop — no `InvalidBoundaryError` exists anywhere in the code —
and it still produces a report; the unguarded division by the zero
boundary area makes every percentage undefined (NaN/inf under the
numpy float semantics of line 166, `none` here), so the division is not
safe.  The absolute areas themselves are still well-defined (0). -/
theorem degenerate_boundary_cex :
    (compute_report [(∅ : Geometry)] [] [] []).building_pct = none ∧
    (compute_report [(∅ : Geometry)] [] [] []).opportunity_pct = none ∧
    (compute_report [(∅ : Geometry)] [] [] []).building_area = 0 ∧
    (compute_report [(∅ : Geometry)] [] [] []).opportunity_area = 0 := by
  decide

/-- C3, amended: a zero-area boundary is not rejected — the pipeline
still produces a report whose absolute areas are well-defined
non-negative numbers (an empty geometry has area exactly 0), but whose
percentages are all undefined because the division of lines 166-169 is
unguarded; the division is safe exactly when the boundary's area is
non-zero. -/
theorem degenerate_boundary_amended (oa_rows bl cl gl : List Geometry) :
    area (∅ : Geometry) = 0 ∧
    0 ≤ (compute_report oa_rows bl cl gl).building_area ∧
    0 ≤ (compute_report oa_rows bl cl gl).carpark_area ∧
    0 ≤ (compute_report oa_rows bl cl gl).greenspace_area ∧
    0 ≤ (compute_report oa_rows bl cl gl).opportunity_area ∧
    (total_area oa_rows = 0 →
      (compute_report oa_rows bl cl gl).building_pct = none ∧
      (compute_report oa_rows bl cl gl).carpark_pct = none ∧
      (compute_report oa_rows bl cl gl).greenspace_pct = none ∧
      (compute_report oa_rows bl cl gl).opportunity_pct = none) ∧
    (total_area oa_rows ≠ 0 →
      (compute_report oa_rows bl cl gl).building_pct ≠ none ∧
      (compute_report oa_rows bl cl gl).carpark_pct ≠ none ∧
      (compute_report oa_rows bl cl gl).greenspace_pct ≠ none ∧
      (compute_report oa_rows bl cl gl).opportunity_pct ≠ none) := by
  have hz : area (∅ : Geometry) = 0 := by simp [area]
  have a1 : (compute_report oa_rows bl cl gl).building_area =
      area (pipeline_geoms oa_rows bl cl gl).building_u := geom_area_eq _
  have a2 : (compute_report oa_rows bl cl gl).carpark_area =
      area (pipeline_geoms oa_rows bl cl gl).carpark_u := geom_area_eq _
  have a3 : (compute_report oa_rows bl cl gl).greenspace_area =
      area (pipeline_geoms oa_rows bl cl gl).greenspace_u := geom_area_eq _
  have a4 : (compute_report oa_rows bl cl gl).opportunity_area =
      area (pipeline_geoms oa_rows bl cl gl).opportunity_g := geom_area_eq _
  refine ⟨hz, ?_, ?_, ?_, ?_, ?_, ?_⟩
  · rw [a1]; exact area_nonneg _
  · rw [a2]; exact area_nonneg _
  · rw [a3]; exact area_nonneg _
  · rw [a4]; exact area_nonneg _
  · intro h0
    refine ⟨?_, ?_, ?_, ?_⟩ <;>
    · show pct _ (total_area oa_rows) = none
      rw [pct, if_pos h0]
  · intro hne
    refine ⟨?_, ?_, ?_, ?_⟩ <;>
    · show pct _ (total_area oa_rows) ≠ none
      rw [pct, if_neg hne]
      exact Option.some_ne_none _

/-- C10: Implicit first-row restriction — the candidate layers are
clipped against all boundary rows, but the opportunity geometry and the
total boundary area come from the first row only.  For a single-row
boundary the first-row view and the all-rows view coincide; for the
concrete two-row boundary `rowsMulti` they diverge: the building layer
`blMulti` survives clipping through the second row (so the building
union is not inside the first row), the reported total area is that of
the first row only, and the four reported areas no longer sum to it. -/
theorem first_row_restriction :
    (∀ (b : Geometry) (bl cl gl : List Geometry),
        total_area [b] = area (unary_union [b]) ∧
        (pipeline_geoms [b] bl cl gl).opportunity_g =
          unary_union [b] \
            classified_union (pipeline_geoms [b] bl cl gl).building_u
              (pipeline_geoms [b] bl cl gl).carpark_u
              (pipeline_geoms [b] bl cl gl).greenspace_u) ∧
    total_area rowsMulti ≠ area (unary_union rowsMulti) ∧
    ¬ (pipeline_geoms rowsMulti blMulti [] []).building_u ⊆ rowsMulti.headD ∅ ∧
    (compute_report rowsMulti blMulti [] []).building_area +
        (compute_report rowsMulti blMulti [] []).carpark_area +
        (compute_report rowsMulti blMulti [] []).greenspace_area +
        (compute_report rowsMulti blMulti [] []).opportunity_area ≠
      total_area rowsMulti := by
  have e1 : (compute_report rowsMulti blMulti [] []).building_area = 1 := by decide
  have e2 : (compute_report rowsMulti blMulti [] []).carpark_area = 0 := by decide
  have e3 : (compute_report rowsMulti blMulti [] []).greenspace_area = 0 := by decide
  have e4 : (compute_report rowsMulti blMulti [] []).opportunity_area = 1 := by decide
  have e5 : total_area rowsMulti = 1 := by decide
  refine ⟨?_, by decide, by decide, ?_⟩
  · intro b bl cl gl
    constructor
    · rw [unary_union_singleton]
      rfl
    · rw [unary_union_singleton]
      rfl
  · rw [e1, e2, e3, e4, e5]
    norm_num

end LondonSurface
